import Mathlib

/-!
Verification of the aiogram filter composition and event-routing engine.

The development shallowly embeds `src/aiogram/filters/base.py` (the
`Filter` contract, `_InvertFilter` and `invert_f`) and — for the parts of
the repository whose implementation files are not in the excerpt (the
`FilterObject` adapter, the exception filters and the dispatch engine,
known here only through their tests and the specification) — models them
from the specification, as marked on each definition.

Python's `Union[bool, Dict[str, Any]]` filter result is embedded as
`FilterResult V`; a raising coroutine is embedded as `Except PyExc`;
the argument bundle `(*args, **kwargs)` of a filter invocation is the
type parameter `E`.
-/

/-- A Python class, identified by its name together with the list of
names of all classes it derives from (its method resolution order,
containing the class itself first).  `isinstance` over this model is
membership of the queried class name in that list. -/
structure PyClass where
  name : String
  mro : List String
deriving DecidableEq, Repr

/-- A Python exception instance: its class and its rendered message
(`str(e)`; an `Exception()` constructed without arguments renders as
the empty string). -/
structure PyExc where
  cls : PyClass
  msg : String
deriving DecidableEq, Repr

/-- `isinstance(e, T)`: the exception instance's class is `T` itself or a
subclass of `T`, i.e. `T`'s name occurs in the instance class's mro. -/
def isinstance (e : PyExc) (T : PyClass) : Bool :=
  e.cls.mro.contains T.name

/-- The value a filter may return: Python's `Union[bool, Dict[str, Any]]`.
`V` is the type of dictionary values. -/
inductive FilterResult (V : Type) where
  | bool (b : Bool)
  | dict (d : List (String × V))
deriving DecidableEq, Repr

/-- Python truthiness of a filter result: `bool(b) = b`,
`bool(dict) = (dict is non-empty)`. -/
def FilterResult.toBool {V : Type} : FilterResult V → Bool
  | .bool b => b
  | .dict d => !d.isEmpty

mutual
/-- A Python invocable usable as a filter callback (`CallbackType`).
`func` is a plain (non-`Filter`) callable; `filterBase` is an instance of
a concrete `Filter` subclass, carried by its `__call__` semantics;
`invertFilter` is `_InvertFilter` from `base.py`, holding a
`FilterObject` target, with
`__call__ = not bool(await self.target.call(*args, **kwargs))`. -/
inductive PyCallable (E V : Type) where
  | func (f : E → Except PyExc (FilterResult V))
  | filterBase (f : E → Except PyExc (FilterResult V))
  | invertFilter (target : FilterObject E V)

/-- Modelled from the spec: the `FilterObject` adapter
(`aiogram/dispatcher/event/handler.py`, not in the excerpt) wraps one
invocable behind a uniform `call` convention and delegates invocation to
it unchanged. -/
inductive FilterObject (E V : Type) where
  | mk (callback : PyCallable E V)
end

/-- The wrapped callback of a `FilterObject`. -/
def FilterObject.callback {E V : Type} : FilterObject E V → PyCallable E V
  | .mk cb => cb

/-- Whether a callback is itself a `Filter` instance (an instance of a
`Filter` subclass), as opposed to a plain callable. -/
def PyCallable.isFilterInstance {E V : Type} : PyCallable E V → Bool
  | .func _ => false
  | .filterBase _ => true
  | .invertFilter _ => true

mutual
/-- Invocation of a callback.  For `_InvertFilter` this is
`base.py` lines 59-60: `return not bool(await self.target.call(*args, **kwargs))`;
a raise from the target propagates. -/
def PyCallable.call {E V : Type} : PyCallable E V → E → Except PyExc (FilterResult V)
  | .func f, e => f e
  | .filterBase f, e => f e
  | .invertFilter t, e =>
    match FilterObject.call t e with
    | .ok r => .ok (.bool (!r.toBool))
    | .error ex => .error ex

/-- Modelled from the spec: `FilterObject.call` invokes the wrapped
callable with the given arguments (awaiting when asynchronous) and
returns its result unchanged. -/
def FilterObject.call {E V : Type} : FilterObject E V → E → Except PyExc (FilterResult V)
  | .mk cb, e => PyCallable.call cb e
end

/-- `invert_f` from `base.py` lines 66-69:
`return _InvertFilter(target=FilterObject(target))`.  The target — a
`Filter` instance or not — is wrapped in a `FilterObject` and the
inverted filter is built over that adapter. -/
def invert_f {E V : Type} (target : PyCallable E V) : PyCallable E V :=
  .invertFilter (.mk target)

/-- `Filter.__invert__` from `base.py` lines 33-34: `return invert_f(self)`. -/
def Filter.invert {E V : Type} (self : PyCallable E V) : PyCallable E V :=
  invert_f self

/-- `Filter.update_handler_flags` from `base.py` lines 36-37: the body is
`pass`; the flags dictionary is not touched.  The in-place-mutated
dictionary is embedded by state passing: the method returns the flags
mapping it was handed. -/
def Filter.update_handler_flags {E V W : Type} (_self : PyCallable E V)
    (flags : List (String × W)) : List (String × W) :=
  flags

/-- C1: for every filter `f` and every argument bundle `e` on which `f`
does not raise and returns `r`, `invert_f f` evaluated on `e` returns
exactly `not bool(r)` as a plain boolean. -/
theorem invert_negates {E V : Type} (f : PyCallable E V) (e : E)
    (r : FilterResult V) (h : PyCallable.call f e = .ok r) :
    PyCallable.call (invert_f f) e = .ok (.bool (!r.toBool)) := by
  simp [invert_f, PyCallable.call, FilterObject.call, h]

/-- Witness for C1 at a concrete filter returning a non-empty dict on
event `0`: the inversion returns `false`. -/
theorem invert_negates_witness :
    PyCallable.call
      (invert_f (.func (fun (_ : Nat) => .ok (.dict [("k", 1)]))))
      0 = .ok (.bool (!(FilterResult.dict [("k", (1 : Nat))]).toBool)) :=
  invert_negates (.func (fun (_ : Nat) => .ok (.dict [("k", 1)]))) 0
    (.dict [("k", 1)]) rfl

/-- A concrete sample filter used by witnesses: a plain callable over
`Nat` events that returns the non-empty mapping `[("k", 1)]`. -/
def sampleDictFilter : PyCallable Nat Nat :=
  .func (fun _ => .ok (.dict [("k", 1)]))

/-- C2: whatever `invert_f f` returns on an argument bundle `e` (when it
does not raise) is a plain boolean, never a dictionary — the payload of a
non-empty mapping returned by `f` is discarded and only its truthiness is
negated. -/
theorem invert_result_is_bool {E V : Type} (f : PyCallable E V) (e : E)
    (r : FilterResult V) (h : PyCallable.call (invert_f f) e = .ok r) :
    ∃ b : Bool, r = .bool b ∧
      ∀ r0, PyCallable.call f e = .ok r0 → b = !r0.toBool := by
  cases hf : PyCallable.call f e with
  | ok r0 =>
    simp only [invert_f, PyCallable.call, FilterObject.call, hf] at h
    refine ⟨!r0.toBool, (Except.ok.inj h).symm, ?_⟩
    intro r1 h1
    rw [Except.ok.inj h1]
  | error ex =>
    simp [invert_f, PyCallable.call, FilterObject.call, hf] at h

/-- Witness for C2: inverting `sampleDictFilter` (which returns the
non-empty mapping `[("k", 1)]`) yields the plain boolean `false`. -/
theorem invert_result_is_bool_witness :
    ∃ b : Bool, (FilterResult.bool false : FilterResult Nat) = .bool b ∧
      ∀ r0, PyCallable.call sampleDictFilter 0 = .ok r0 → b = !r0.toBool :=
  invert_result_is_bool sampleDictFilter 0 (.bool false) rfl

/-- C3: `invert_f (invert_f f)` is a genuine double wrapping — the outer
inverted filter's target adapter wraps the inner inverted filter, nothing
is special-cased away — and on every argument bundle on which `f` returns
`r`, it evaluates to the double negation `bool(r)`. -/
theorem invert_invert {E V : Type} (f : PyCallable E V) (e : E)
    (r : FilterResult V) (h : PyCallable.call f e = .ok r) :
    invert_f (invert_f f)
      = .invertFilter (.mk (.invertFilter (.mk f))) ∧
    PyCallable.call (invert_f (invert_f f)) e = .ok (.bool r.toBool) := by
  refine ⟨rfl, ?_⟩
  simp [invert_f, PyCallable.call, FilterObject.call, FilterResult.toBool, h]

/-- Witness for C3 at `sampleDictFilter`, whose result is a truthy
mapping: double inversion is a double wrapping and evaluates to `true`. -/
theorem invert_invert_witness :
    invert_f (invert_f sampleDictFilter)
      = .invertFilter (.mk (.invertFilter (.mk sampleDictFilter))) ∧
    PyCallable.call (invert_f (invert_f sampleDictFilter)) 0
      = .ok (.bool (FilterResult.dict [("k", (1 : Nat))]).toBool) :=
  invert_invert sampleDictFilter 0 (.dict [("k", 1)]) rfl

/-- C4: `invert_f` wraps its target — in particular any target that is
not already a `Filter` instance — in a `FilterObject` and builds the
inverted filter over that adapter; the inverted filter holds that
`FilterObject` as its target, and every invocation delegates to the
adapter's `call` (negating the truthiness of whatever the adapter yields,
and propagating a raise). -/
theorem invert_wraps_in_filter_object {E V : Type} (target : PyCallable E V) :
    (target.isFilterInstance = false →
      invert_f target = .invertFilter (.mk target)) ∧
    ∃ fo : FilterObject E V, invert_f target = .invertFilter fo ∧
      fo.callback = target ∧
      (∀ e r, FilterObject.call fo e = .ok r →
        PyCallable.call (invert_f target) e = .ok (.bool (!r.toBool))) ∧
      (∀ e ex, FilterObject.call fo e = .error ex →
        PyCallable.call (invert_f target) e = .error ex) := by
  refine ⟨fun _ => rfl, ⟨.mk target, rfl, rfl, ?_, ?_⟩⟩
  · intro e r h
    simp [invert_f, PyCallable.call, h]
  · intro e ex h
    simp [invert_f, PyCallable.call, h]

/-- C10: the base `Filter.update_handler_flags` leaves the flags mapping
unchanged — its body is `pass`, so it contributes no handler flags. -/
theorem update_handler_flags_noop {E V W : Type} (f : PyCallable E V)
    (flags : List (String × W)) :
    Filter.update_handler_flags f flags = flags :=
  rfl

/-- Modelled from the spec: a compiled regular-expression pattern
(`re.Pattern`), as produced by `re.compile` (not in the excerpt).  The
claims exercise only literal patterns, so the pattern carries its source
text and `search` matches it literally anywhere in the haystack. -/
structure RePattern where
  source : String
deriving DecidableEq, Repr

/-- Modelled from the spec: `re.compile` with default (case-sensitive,
no multiline) semantics on a literal pattern. -/
def re_compile (s : String) : RePattern :=
  ⟨s⟩

/-- Modelled from the spec: a regex match object (`re.Match`): the start
position of the match in the haystack and the matched text. -/
structure ReMatch where
  pos : Nat
  matched : String
deriving DecidableEq, Repr

/-- Find the least position at or after `i` where `pat` occurs in `s`
(both as character lists). -/
def searchFrom (pat : List Char) : List Char → Nat → Option Nat
  | s, i =>
    if pat.isPrefixOf s then some i
    else
      match s with
      | [] => none
      | _ :: t => searchFrom pat t (i + 1)

/-- Modelled from the spec: `Pattern.search` — match anywhere in the
string, not only at the start; `None` when there is no occurrence. -/
def RePattern.search (p : RePattern) (s : String) : Option ReMatch :=
  match searchFrom p.source.toList s.toList 0 with
  | none => none
  | some i => some ⟨i, p.source⟩

/-- An incoming update event; only its identifier matters here. -/
structure Update where
  update_id : Nat
deriving DecidableEq, Repr

/-- Modelled from the spec: `ErrorEvent` (`aiogram/types/error_event.py`,
not in the excerpt) wraps the original incoming update together with the
caught exception instance. -/
structure ErrorEvent where
  update : Update
  exception : PyExc
deriving DecidableEq, Repr

/-- The values stored in context mappings and returned by handlers. -/
inductive PyValue where
  | str (s : String)
  | reMatch (m : ReMatch)
deriving DecidableEq, Repr

/-- The constructor argument of `ExceptionMessageFilter`:
`Union[str, Pattern[str]]`. -/
inductive PatternArg where
  | ofStr (s : String)
  | ofPattern (p : RePattern)
deriving DecidableEq, Repr

/-- Modelled from the spec: `ExceptionMessageFilter`
(`aiogram/filters/exception.py`, not in the excerpt) holds a single
compiled pattern. -/
structure ExceptionMessageFilter where
  pattern : RePattern
deriving DecidableEq, Repr

/-- Modelled from the spec: `ExceptionMessageFilter` construction — a
plain string argument is compiled into a pattern; an already-compiled
pattern argument is stored unchanged. -/
def ExceptionMessageFilter.make : PatternArg → ExceptionMessageFilter
  | .ofStr s => ⟨re_compile s⟩
  | .ofPattern p => ⟨p⟩

/-- Modelled from the spec: `ExceptionMessageFilter.__call__` renders the
exception to its message string, applies the stored pattern's search
semantics, and returns `False` on no match, and on a match a mapping with
the single entry `"match_exception"` holding the match object. -/
def ExceptionMessageFilter.call (f : ExceptionMessageFilter)
    (event : ErrorEvent) : FilterResult PyValue :=
  match f.pattern.search event.exception.msg with
  | none => .bool false
  | some m => .dict [("match_exception", .reMatch m)]

/-- Modelled from the spec: `ExceptionTypeFilter` holds one or more
exception types. -/
structure ExceptionTypeFilter where
  exceptions : List PyClass
deriving DecidableEq, Repr

/-- Modelled from the spec: `ExceptionTypeFilter.__call__` returns
`isinstance(event.exception, self.exceptions)` — true iff the wrapped
exception is an instance of at least one configured type; no context
mapping is ever produced. -/
def ExceptionTypeFilter.call (f : ExceptionTypeFilter)
    (event : ErrorEvent) : FilterResult PyValue :=
  .bool (f.exceptions.any (fun T => isinstance event.exception T))

/-- C5: constructing `ExceptionMessageFilter` from the plain string `s`
compiles it (the stored pattern is the compiled pattern object
`re_compile s`), constructing it from any precompiled pattern stores that
pattern unchanged, and the filters built from `s` and from the
precompiled equivalent of `s` evaluate identically on every error
event. -/
theorem emf_construction_uniform (s : String) :
    (ExceptionMessageFilter.make (.ofStr s)).pattern = re_compile s ∧
    (∀ p : RePattern,
      (ExceptionMessageFilter.make (.ofPattern p)).pattern = p) ∧
    ∀ ev : ErrorEvent,
      (ExceptionMessageFilter.make (.ofStr s)).call ev
        = (ExceptionMessageFilter.make (.ofPattern (re_compile s))).call ev :=
  ⟨rfl, fun _ => rfl, fun _ => rfl⟩

/-- Python's built-in `Exception` class. -/
def ExceptionCls : PyClass :=
  ⟨"Exception", ["Exception", "BaseException", "object"]⟩

/-- Python's built-in `ValueError` class (a subclass of `Exception`). -/
def ValueErrorCls : PyClass :=
  ⟨"ValueError", ["ValueError", "Exception", "BaseException", "object"]⟩

/-- Python's built-in `TypeError` class (a subclass of `Exception`). -/
def TypeErrorCls : PyClass :=
  ⟨"TypeError", ["TypeError", "Exception", "BaseException", "object"]⟩

/-- The test suite's `MyException(Exception)`. -/
def MyExceptionCls : PyClass :=
  ⟨"MyException", ["MyException", "Exception", "BaseException", "object"]⟩

/-- The test suite's `MyAnotherException(MyException)`. -/
def MyAnotherExceptionCls : PyClass :=
  ⟨"MyAnotherException",
   ["MyAnotherException", "MyException", "Exception", "BaseException", "object"]⟩

/-- C6: `ExceptionMessageFilter(pattern="KABOOM")` on an error event
wrapping `Exception()` (empty message) is falsy; on an error event
wrapping `Exception("KABOOM")` it returns a mapping holding the match
object under the key `"match_exception"` — a dict, not a boolean. -/
theorem emf_kaboom_match :
    ((ExceptionMessageFilter.make (.ofStr "KABOOM")).call
        ⟨⟨0⟩, ⟨ExceptionCls, ""⟩⟩).toBool = false ∧
    ∃ m : ReMatch,
      (ExceptionMessageFilter.make (.ofStr "KABOOM")).call
          ⟨⟨0⟩, ⟨ExceptionCls, "KABOOM"⟩⟩
        = .dict [("match_exception", .reMatch m)] := by
  refine ⟨by decide, ⟨⟨0, "KABOOM"⟩, by decide⟩⟩

/-- C7: `ExceptionTypeFilter` always yields a plain boolean (never a
context mapping), which is true iff the wrapped exception is an instance
of at least one configured type; concretely, with `MyException`
configured, instances of `MyException` and of its subclass
`MyAnotherException` match, while instances of its superclass
`Exception` and of the unrelated `ValueError` and `TypeError` do not. -/
theorem etf_isinstance_iff :
    (∀ (f : ExceptionTypeFilter) (ev : ErrorEvent),
      (∃ b : Bool, f.call ev = .bool b) ∧
      ((f.call ev).toBool = true ↔
        ∃ T ∈ f.exceptions, isinstance ev.exception T = true)) ∧
    (∀ msg : String,
      (ExceptionTypeFilter.mk [MyExceptionCls]).call
          ⟨⟨0⟩, ⟨ExceptionCls, msg⟩⟩ = .bool false ∧
      (ExceptionTypeFilter.mk [MyExceptionCls]).call
          ⟨⟨0⟩, ⟨ValueErrorCls, msg⟩⟩ = .bool false ∧
      (ExceptionTypeFilter.mk [MyExceptionCls]).call
          ⟨⟨0⟩, ⟨TypeErrorCls, msg⟩⟩ = .bool false ∧
      (ExceptionTypeFilter.mk [MyExceptionCls]).call
          ⟨⟨0⟩, ⟨MyExceptionCls, msg⟩⟩ = .bool true ∧
      (ExceptionTypeFilter.mk [MyExceptionCls]).call
          ⟨⟨0⟩, ⟨MyAnotherExceptionCls, msg⟩⟩ = .bool true) := by
  constructor
  · intro f ev
    refine ⟨⟨_, rfl⟩, ?_⟩
    simp [ExceptionTypeFilter.call, FilterResult.toBool, List.any_eq_true]
  · intro msg
    refine ⟨?_, ?_, ?_, ?_, ?_⟩ <;> rfl

/-- A context mapping: string keys to values, accumulated across a
matching chain's filters. -/
abbrev Ctx : Type := List (String × PyValue)

/-- Modelled from the spec: merging a filter's returned mapping into the
accumulated context — keys from the new mapping override keys of the
same name already present. -/
def mergeCtx (acc new : Ctx) : Ctx :=
  acc.filter (fun kv => !(new.any (fun kv2 => kv2.1 == kv.1))) ++ new

/-- Modelled from the spec: a handler entry — an ordered filter chain
(each filter a `FilterObject` invoked with the event and the current
accumulated context) plus the callback to invoke, which may raise. -/
structure HandlerEntry (E : Type) where
  chain : List (FilterObject (E × Ctx) PyValue)
  callback : E → Ctx → Except PyExc PyValue

/-- Modelled from the spec: chain evaluation — iterate the chain in
order with an accumulating context; a falsy result aborts the entry
(`none`); a mapping result is merged in and evaluation continues; a
`true` boolean continues without merging; a raise from a filter
propagates.  Short-circuit: once a filter is falsy the rest of the chain
is not examined. -/
def evalChain {E : Type} (e : E) :
    List (FilterObject (E × Ctx) PyValue) → Ctx → Except PyExc (Option Ctx)
  | [], ctx => .ok (some ctx)
  | fo :: rest, ctx =>
    match FilterObject.call fo (e, ctx) with
    | .error ex => .error ex
    | .ok r =>
      if r.toBool then
        match r with
        | .dict d => evalChain e rest (mergeCtx ctx d)
        | .bool _ => evalChain e rest ctx
      else .ok none

/-- The outcome of routing one event through an ordered entry list. -/
inductive RouteOutcome where
  | noMatch
  | handled (r : PyValue)
  | filterError (ex : PyExc)
  | handlerError (ex : PyExc)
deriving DecidableEq, Repr

/-- Modelled from the spec: router evaluation — try entries in
registration order; the first entry whose chain matches has its callback
invoked with the event and the merged context, and the callback's result
(or raise) ends routing; a raise during chain evaluation ends routing as
a filter error; exhausting all entries is no match. -/
def routeEvent {E : Type} (e : E) : List (HandlerEntry E) → RouteOutcome
  | [] => .noMatch
  | entry :: rest =>
    match evalChain e entry.chain [] with
    | .error ex => .filterError ex
    | .ok none => routeEvent e rest
    | .ok (some ctx) =>
      match entry.callback e ctx with
      | .error ex => .handlerError ex
      | .ok res => .handled res

/-- Modelled from the spec: the dispatch engine holds the ordered
normal-update entries and the separately registered error entries. -/
structure Dispatcher where
  updateHandlers : List (HandlerEntry Update)
  errorHandlers : List (HandlerEntry ErrorEvent)

/-- What one dispatch attempt yields to its caller: a result (possibly
none when no handler claimed the event), or a propagated exception. -/
inductive DispatchResult where
  | ok (r : Option PyValue)
  | raised (ex : PyExc)
deriving DecidableEq, Repr

/-- Modelled from the spec: `Dispatcher.feed_update` — route the update
through the normal chain; when the matched handler raises, wrap the
original event and the exception into an `ErrorEvent` and re-enter
routing against the error-handler chain; a matching error handler's
result becomes the dispatch result, while no error match re-raises the
original exception; filter-evaluation errors and errors raised inside
error handlers propagate directly (single-level routing). -/
def Dispatcher.feed_update (dp : Dispatcher) (u : Update) : DispatchResult :=
  match routeEvent u dp.updateHandlers with
  | .noMatch => .ok none
  | .handled r => .ok (some r)
  | .filterError ex => .raised ex
  | .handlerError ex =>
    match routeEvent (ErrorEvent.mk u ex) dp.errorHandlers with
    | .noMatch => .raised ex
    | .handled r => .ok (some r)
    | .filterError ex2 => .raised ex2
    | .handlerError ex2 => .raised ex2

/-- The exception raised by the test scenario's update handler:
`ValueError("KABOOM")`. -/
def kaboomError : PyExc := ⟨ValueErrorCls, "KABOOM"⟩

/-- The test scenario's normal handler: no filters, always raises
`ValueError("KABOOM")`. -/
def update_handler : HandlerEntry Update :=
  ⟨[], fun _ _ => .error kaboomError⟩

/-- The test scenario's error handler: gated by
`ExceptionMessageFilter(pattern="KABOOM")`, returns `"Handled"`. -/
def handler0 : HandlerEntry ErrorEvent :=
  ⟨[FilterObject.mk (.filterBase (fun arg =>
      .ok ((ExceptionMessageFilter.make (.ofStr "KABOOM")).call arg.1)))],
   fun _ _ => .ok (.str "Handled")⟩

/-- The test scenario's dispatcher. -/
def dispatcherKaboom : Dispatcher := ⟨[update_handler], [handler0]⟩

/-- C8: dispatching one update through the scenario dispatcher yields
the result `"Handled"` — the `ValueError` does not propagate out of the
dispatch call — and the exception is indeed captured into an
`ErrorEvent` wrapping the original update and routed through the
error-handler chain, where the gated handler claims it. -/
theorem dispatch_handles_exception :
    Dispatcher.feed_update dispatcherKaboom ⟨0⟩ = .ok (some (.str "Handled")) ∧
    routeEvent ⟨⟨0⟩, kaboomError⟩ dispatcherKaboom.errorHandlers
      = .handled (.str "Handled") := by
  constructor <;> decide

/-- C9: chain evaluation is short-circuit — when the first filter of a
two-filter chain yields a falsy result, the chain fails with the same
outcome whatever the second filter is (it is never invoked), identical
to evaluating the one-filter chain. -/
theorem chain_short_circuit {E : Type} (e : E) (ctx : Ctx)
    (fo1 : FilterObject (E × Ctx) PyValue) (r : FilterResult PyValue)
    (h : FilterObject.call fo1 (e, ctx) = .ok r) (hf : r.toBool = false) :
    ∀ fo2 : FilterObject (E × Ctx) PyValue,
      evalChain e [fo1, fo2] ctx = .ok none ∧
      evalChain e [fo1, fo2] ctx = evalChain e [fo1] ctx := by
  intro fo2
  constructor <;> simp [evalChain, h, hf]

/-- A first chain filter that returns `False` on every invocation. -/
def falseFO : FilterObject (Nat × Ctx) PyValue :=
  .mk (.func (fun _ => .ok (.bool false)))

/-- A second chain filter that returns `True` on every invocation. -/
def trueFO : FilterObject (Nat × Ctx) PyValue :=
  .mk (.func (fun _ => .ok (.bool true)))

/-- Witness for C9: with a concrete falsy first filter and a concrete
second filter, the two-filter chain fails without consulting the
second. -/
theorem chain_short_circuit_witness :
    evalChain 0 [falseFO, trueFO] [] = .ok none ∧
    evalChain 0 [falseFO, trueFO] [] = evalChain 0 [falseFO] [] :=
  chain_short_circuit 0 [] falseFO (.bool false) rfl rfl trueFO
